import Mathlib

/-!
Verification of the financial-ratio engine of `Stock_Analysis.py`
(`safe_get`, `calculate_ratios`, and the inline accessor logic they use).

Embedding conventions:

* The source transposes every statement (`stock.financials.T`,
  `stock.balance_sheet.T`, `stock.cashflow.T`, lines 92-94).  In yfinance the
  untransposed frame has line items as its index and reporting-period dates as
  its columns, so after `.T` the index holds the reporting periods and the
  columns hold the line items.  A statement is modelled as `Statement`: the
  list of reporting-period identifiers (the transposed frame's index, most
  recent first) together with an association list from line-item name (the
  transposed frame's columns, in column order) to that item's per-period
  values, aligned positionally with the period list.
* Because of the transposition, `financials.columns[0]` (line 101) is the
  first line-item name, not a period, and `df.loc[item, recent_year]`
  (lines 106-143) looks the row label `item` up among the reporting periods —
  raising `KeyError` whenever a present line item's name is not itself a
  period identifier.  The embedding keeps both behaviours exactly.
* Scalar values flowing through the engine are `Val`: finite rationals stand
  for Python/numpy numbers, `inf`/`ninf`/`nan` for the IEEE-754 specials that
  numpy float64 division produces, `pynone` for Python `None`, and `na` for the
  string sentinel `'N/A'` the source uses for missing data.
* Statement cells are numpy float64 scalars, so dividing them by zero yields
  an IEEE infinity or NaN and does not raise (`npDiv`).  Quote-snapshot values
  (`stock.info`, plain deserialized JSON numbers or `None`) follow plain Python
  arithmetic: dividing by zero raises `ZeroDivisionError` and arithmetic on
  `None` raises `TypeError` (`pyDiv`, `pyMul`).
* A Python function that can raise is embedded as `Except PyErr _`.
-/

/-- Scalar values manipulated by the engine: finite numbers, IEEE specials,
Python `None`, and the `'N/A'` sentinel string used by the source. -/
inductive Val where
  | num (q : ℚ)
  | inf
  | ninf
  | nan
  | pynone
  | na
deriving DecidableEq

/-- The exception classes the embedded code can raise. -/
inductive PyErr where
  | nameError (ident : String)
  | typeError
  | zeroDivisionError
  | keyError (k : String)
deriving DecidableEq

/-- `calculate_ratios` returns either an early-exit message string (lines
98 and 103 of the source) or the dictionary of ratios (lines 147-162; never
actually reached, see `calc_body_src`). -/
inductive CalcResult where
  | msg (s : String)
  | ratios (d : List (String × Val))
deriving DecidableEq

/-- One transposed financial statement: `periods` is the transposed frame's
index (reporting periods, most recent first), `rows` maps each line-item name
(the transposed frame's columns, in column order) to its per-period values,
aligned positionally with `periods`. -/
structure Statement where
  periods : List String
  rows : List (String × List Val)
deriving DecidableEq

/-- A quote snapshot (`stock.info`): a flat mapping from metric name to a
deserialized JSON value (a number or `None`). -/
def Quote : Type := List (String × Val)

/-- `df.empty` on the transposed frame: true when either axis has length
zero (no reporting periods or no line items). -/
def Statement.isEmptyStmt (s : Statement) : Bool :=
  s.periods.isEmpty || s.rows.isEmpty

/-- `item in df`: membership among the transposed frame's columns, i.e.
among the statement's line items. -/
def Statement.hasItem (s : Statement) (item : String) : Bool :=
  (s.rows.lookup item).isSome

/-- `df.loc[r, c]` on the transposed frame: the row label `r` is looked up in
the index — the reporting periods — and the column label `c` among the line
items.  A row label that is not a period raises `KeyError r`; a column label
that is not a line item raises `KeyError c`; a missing cell inside an existing
row is a pandas `NaN`.  The source always calls this as
`df.loc[item, recent_year]`, so `r` is a line-item name: the lookup succeeds
only in the degenerate case where that name is also a period identifier. -/
def Statement.loc (s : Statement) (r c : String) : Except PyErr Val :=
  match s.periods.findIdx? (· == r) with
  | Option.none => Except.error (PyErr.keyError r)
  | Option.some i =>
    match s.rows.lookup c with
    | Option.none => Except.error (PyErr.keyError c)
    | Option.some vals => Except.ok ((vals.get? i).getD Val.nan)

/-- The guarded line-item read the source repeats at lines 106-143:
`df.loc[item, recent_year] if item in df else 'N/A'`.  The guard checks the
columns (line items) while `.loc` uses `item` as a row label among the
periods, so a present item raises `KeyError item` unless its name is also a
period identifier. -/
def stmtGet (s : Statement) (item period : String) : Except PyErr Val :=
  if s.hasItem item then s.loc item period else Except.ok Val.na

/-- Source lines 86-87: `safe_get(data, key, default_value='N/A')` is
`data.get(key, default_value)` — the stored value when the key is present
(even when that value is `None`), the default only when the key is absent. -/
def safe_get (data : Quote) (key : String) (default_value : Val) : Val :=
  (data.lookup key).getD default_value

/-- Source lines 100-101 (inline in `calculate_ratios`):
`financials.columns[0] if len(financials.columns) > 0 else None`.  On the
transposed frame the columns are the line items, so despite its name this is
the first line-item name — `None` exactly when there are no line items, not
when there are no reporting periods.  `Option.none` stands for Python
`None`. -/
def latest_period (s : Statement) : Option String :=
  if s.rows.length > 0 then (s.rows.map Prod.fst).head? else Option.none

/-- numpy float64 division (statement cells): division by zero produces an
IEEE infinity or NaN and does not raise.  Operands other than numbers and
IEEE specials never reach this operation (the source's `!= 'N/A'` guards). -/
def npDiv : Val → Val → Val
  | Val.num a, Val.num b =>
    if b = 0 then (if a = 0 then Val.nan else if a < 0 then Val.ninf else Val.inf)
    else Val.num (a / b)
  | Val.inf, Val.num b => if b < 0 then Val.ninf else Val.inf
  | Val.ninf, Val.num b => if b < 0 then Val.inf else Val.ninf
  | Val.num _, Val.inf => Val.num 0
  | Val.num _, Val.ninf => Val.num 0
  | _, _ => Val.nan

/-- numpy float64 multiplication; in the engine only `x * 100` occurs. -/
def npMul : Val → Val → Val
  | Val.num a, Val.num b => Val.num (a * b)
  | Val.inf, Val.num b => if b < 0 then Val.ninf else if b = 0 then Val.nan else Val.inf
  | Val.ninf, Val.num b => if b < 0 then Val.inf else if b = 0 then Val.nan else Val.ninf
  | _, _ => Val.nan

/-- numpy float64 subtraction (for `current_assets - inventory`). -/
def npSub : Val → Val → Val
  | Val.num a, Val.num b => Val.num (a - b)
  | Val.inf, Val.num _ => Val.inf
  | Val.ninf, Val.num _ => Val.ninf
  | Val.num _, Val.inf => Val.ninf
  | Val.num _, Val.ninf => Val.inf
  | _, _ => Val.nan

/-- Plain Python division (quote-snapshot values): a zero divisor raises
`ZeroDivisionError`; `None` or the `'N/A'` string as an operand raises
`TypeError`.  Quote values are deserialized JSON, so IEEE specials do not
occur among them and are folded into the `TypeError` branch. -/
def pyDiv : Val → Val → Except PyErr Val
  | Val.num a, Val.num b =>
    if b = 0 then Except.error PyErr.zeroDivisionError else Except.ok (Val.num (a / b))
  | _, _ => Except.error PyErr.typeError

/-- Plain Python multiplication, for `dividend_yield * 100` and
`(1 / pe_ratio) * 100`.  `None * 100` raises `TypeError`; the `'N/A'` string
never reaches a multiplication in the source (it is guarded out first). -/
def pyMul : Val → Val → Except PyErr Val
  | Val.num a, Val.num b => Except.ok (Val.num (a * b))
  | _, _ => Except.error PyErr.typeError

/-- Source line 112: `(gross_profit / revenue) * 100 if gross_profit != 'N/A'
and revenue != 'N/A' else 'N/A'`. -/
def gross_profit_margin (gross_profit revenue : Val) : Val :=
  if gross_profit ≠ Val.na ∧ revenue ≠ Val.na
  then npMul (npDiv gross_profit revenue) (Val.num 100) else Val.na

/-- Source line 113. -/
def net_profit_margin (net_income revenue : Val) : Val :=
  if net_income ≠ Val.na ∧ revenue ≠ Val.na
  then npMul (npDiv net_income revenue) (Val.num 100) else Val.na

/-- Source line 114. -/
def roa (net_income total_assets : Val) : Val :=
  if net_income ≠ Val.na ∧ total_assets ≠ Val.na
  then npMul (npDiv net_income total_assets) (Val.num 100) else Val.na

/-- Source line 122. -/
def current_ratio (current_assets current_liabilities : Val) : Val :=
  if current_assets ≠ Val.na ∧ current_liabilities ≠ Val.na
  then npDiv current_assets current_liabilities else Val.na

/-- Source line 123. -/
def quick_ratio (current_assets inventory current_liabilities : Val) : Val :=
  if current_assets ≠ Val.na ∧ inventory ≠ Val.na ∧ current_liabilities ≠ Val.na
  then npDiv (npSub current_assets inventory) current_liabilities else Val.na

/-- Source line 128. -/
def debt_to_equity (total_debt shareholders_equity : Val) : Val :=
  if total_debt ≠ Val.na ∧ shareholders_equity ≠ Val.na
  then npDiv total_debt shareholders_equity else Val.na

/-- Source line 133. -/
def interest_coverage (ebit interest_expense : Val) : Val :=
  if ebit ≠ Val.na ∧ interest_expense ≠ Val.na
  then npDiv ebit interest_expense else Val.na

/-- Source line 138: `market_price / book_value if market_price != 'N/A' and
book_value != 'N/A' else 'N/A'` — plain Python division of quote values. -/
def pb_ratio (market_price book_value : Val) : Except PyErr Val :=
  if market_price ≠ Val.na ∧ book_value ≠ Val.na
  then pyDiv market_price book_value else Except.ok Val.na

/-- Source line 139: `safe_get(stock.info, 'dividendYield') * 100 if
safe_get(stock.info, 'dividendYield') != 'N/A' else 'N/A'`. -/
def dividend_yield (dy : Val) : Except PyErr Val :=
  if dy ≠ Val.na then pyMul dy (Val.num 100) else Except.ok Val.na

/-- Source line 140's conditional expression,
`(1 / pe_ratio) * 100 if pe_ratio != 'N/A' else 'N/A'`, as a function of the
value of `pe_ratio` — which the source never assigns, so evaluating the line
in the program raises `NameError` instead of applying this expression. -/
def earnings_yield (pe : Val) : Except PyErr Val :=
  if pe ≠ Val.na then do
    let r ← pyDiv (Val.num 1) pe
    pyMul r (Val.num 100)
  else Except.ok Val.na

/-- Source line 144. -/
def inventory_turnover (cogs inventory : Val) : Val :=
  if cogs ≠ Val.na ∧ inventory ≠ Val.na then npDiv cogs inventory else Val.na

/-- Source line 145. -/
def asset_turnover (revenue total_assets : Val) : Val :=
  if revenue ≠ Val.na ∧ total_assets ≠ Val.na
  then npDiv revenue total_assets else Val.na

/-- Source lines 106-140 exactly as written in `src/Stock_Analysis.py`:
every guarded lookup through `stmtGet` (which raises `KeyError` on present
items, see there), in source order; if all lookups and the quote arithmetic
pass, line 140 evaluates `pe_ratio != 'N/A'` with `pe_ratio` never assigned
anywhere in the file, raising `NameError` — the dictionary at lines 147-162
is dead code and is not modelled. -/
def calc_body_src (financials balance_sheet cashflow : Statement) (info : Quote)
    (recent_year : String) : Except PyErr CalcResult := do
  let gross_profit ← stmtGet financials "Gross Profit" recent_year
  let revenue ← stmtGet financials "Total Revenue" recent_year
  let net_income ← stmtGet financials "Net Income" recent_year
  let total_assets ← stmtGet balance_sheet "Total Assets" recent_year
  let _gpm := gross_profit_margin gross_profit revenue
  let _npm := net_profit_margin net_income revenue
  let _roav := roa net_income total_assets
  let current_assets ← stmtGet balance_sheet "Total Current Assets" recent_year
  let current_liabilities ← stmtGet balance_sheet "Total Current Liabilities" recent_year
  let inventory ← stmtGet balance_sheet "Inventory" recent_year
  let _cr := current_ratio current_assets current_liabilities
  let _qr := quick_ratio current_assets inventory current_liabilities
  let total_debt ← stmtGet balance_sheet "Total Debt" recent_year
  let shareholders_equity ← stmtGet balance_sheet "Total Stockholder Equity" recent_year
  let _dte := debt_to_equity total_debt shareholders_equity
  let ebit ← stmtGet financials "EBIT" recent_year
  let interest_expense ← stmtGet cashflow "Interest Expense" recent_year
  let _ic := interest_coverage ebit interest_expense
  let market_price := safe_get info "regularMarketPrice" Val.na
  let book_value := safe_get info "bookValue" Val.na
  let _pb ← pb_ratio market_price book_value
  let _dy ← dividend_yield (safe_get info "dividendYield" Val.na)
  Except.error (PyErr.nameError "pe_ratio")

/-- `calculate_ratios` as written in `src/Stock_Analysis.py` (lines 90-162):
the empty check of lines 97-98, the `recent_year` extraction and falsiness
check of lines 100-103 (`recent_year` is the first line-item name of the
transposed income statement; an empty string is falsy, like `None`), then the
body — which raises `KeyError` at the first present recognized line item, or
`NameError` at line 140 when no recognized item is present. -/
def calculate_ratios_src (financials balance_sheet cashflow : Statement)
    (info : Quote) : Except PyErr CalcResult :=
  if financials.isEmptyStmt then Except.ok (CalcResult.msg "Financial data not available")
  else
    match latest_period financials with
    | Option.none => Except.ok (CalcResult.msg "No data available")
    | Option.some recent_year =>
      if recent_year = "" then Except.ok (CalcResult.msg "No data available")
      else calc_body_src financials balance_sheet cashflow info recent_year

/-- Projection used to state results: the value stored for a ratio name when
the engine returned a ratio dictionary, `Option.none` otherwise. -/
def getRatio (r : Except PyErr CalcResult) (name : String) : Option Val :=
  match r with
  | Except.ok (CalcResult.ratios d) => d.lookup name
  | _ => Option.none

/-! Concrete snapshots used by the scenario claims. -/

/-- An empty statement: the provider returned nothing. -/
def emptyStmt : Statement := ⟨[], []⟩

/-- Income statement of the scenario claims: `{Total Revenue: [1000]}`,
one reporting period. -/
def finTR : Statement := ⟨["2023"], [("Total Revenue", [Val.num 1000])]⟩

/-- Income statement `{Net Income: [7]}`. -/
def finNI : Statement := ⟨["2023"], [("Net Income", [Val.num 7])]⟩

/-- Income statement whose only line item is not among the names the engine
looks up, so no guarded lookup fires. -/
def finOpEx : Statement := ⟨["2023"], [("Operating Expense", [Val.num 1])]⟩

/-- Income statement with two reporting periods and one line item. -/
def finTwoPeriods : Statement :=
  ⟨["2024-12-31", "2023-12-31"], [("Total Revenue", [Val.num 1000, Val.num 900])]⟩

/-- Balance sheet of the exact-values scenario: `{Total Assets: [500],
Total Current Assets: [200], Total Current Liabilities: [100],
Inventory: [50]}`. -/
def bsScenario : Statement :=
  ⟨["2023"],
   [("Total Assets", [Val.num 500]), ("Total Current Assets", [Val.num 200]),
    ("Total Current Liabilities", [Val.num 100]), ("Inventory", [Val.num 50])]⟩

/-- Balance sheet of the zero-denominator scenario:
`{Total Current Liabilities: [0], Total Current Assets: [100]}`. -/
def bsZeroLiab : Statement :=
  ⟨["2023"],
   [("Total Current Liabilities", [Val.num 0]),
    ("Total Current Assets", [Val.num 100])]⟩

/-- Balance sheet `{Total Assets: [500]}`. -/
def bsTA : Statement := ⟨["2023"], [("Total Assets", [Val.num 500])]⟩

/-- Quote snapshot `{trailingPE: 10}`. -/
def qPE10 : Quote := [("trailingPE", Val.num 10)]

/-- Quote snapshot `{dividendYield: 0}`. -/
def qDY0 : Quote := [("dividendYield", Val.num 0)]

/-- Quote snapshot `{dividendYield: 2}`. -/
def qDY2 : Quote := [("dividendYield", Val.num 2)]

/-! Claim theorems. -/

/-- Claim C1 (code_bug): the claim says `calculate_ratios` always returns a
RatioSet and never raises, but on income `{Total Revenue: [1000]}` (all other
snapshots empty) the source raises `KeyError('Total Revenue')` at line 107:
`recent_year` is the first line-item name of the transposed frame, and
`.loc['Total Revenue', recent_year]` looks the item up among the reporting
periods.  (On inputs where no recognized item is present, line 140's
never-assigned `pe_ratio` raises `NameError` instead — the function never
returns a RatioSet.) -/
theorem calculate_ratios_src_raises_key_error :
    calculate_ratios_src finTR emptyStmt emptyStmt [] =
      Except.error (PyErr.keyError "Total Revenue") := by rfl

/-- Claim C2 (code_bug): with `Total Current Liabilities = [0]` and
`Total Current Assets = [100]` the claimed `'N/A'`-on-zero-denominator never
happens: the engine raises `KeyError('Total Revenue')` at line 107 (transposed
`.loc`) before any ratio is computed — and no zero-denominator guard exists
anywhere in lines 106-145, contradicting the comment "Ensure there's no
division by zero" at line 111. -/
theorem zero_denominator_scenario_raises :
    calculate_ratios_src finTR bsZeroLiab emptyStmt [] =
      Except.error (PyErr.keyError "Total Revenue") := by rfl

/-- Claim C3, counterexample: on income `{Net Income: [7]}` the Gross Profit
and Total Revenue operands are absent, so the claim asserts Gross Profit
Margin = `'N/A'` in the returned RatioSet; the source instead raises
`KeyError('Net Income')` at line 108 (the first present item's transposed
`.loc`) and returns no RatioSet at all. -/
theorem missing_operand_counterexample :
    calculate_ratios_src finNI emptyStmt emptyStmt [] =
        Except.error (PyErr.keyError "Net Income") ∧
      getRatio (calculate_ratios_src finNI emptyStmt emptyStmt [])
        "Gross Profit Margin" ≠ some Val.na :=
  ⟨rfl, by decide⟩

/-- Claim C3, amended: each ratio formula's conditional expression
(lines 112-145 and 138-140) evaluates to `'N/A'` whenever any of its guarded
operands is the `'N/A'` sentinel; but the engine as a whole never returns a
RatioSet — with a recognized line item present it raises `KeyError` from the
transposed `.loc`, and otherwise `NameError` at line 140 — so no `'N/A'`
entry is ever actually returned for any ratio. -/
theorem ratio_formulas_absorb_na :
    (∀ v, gross_profit_margin Val.na v = Val.na) ∧
    (∀ v, gross_profit_margin v Val.na = Val.na) ∧
    (∀ v, net_profit_margin Val.na v = Val.na) ∧
    (∀ v, net_profit_margin v Val.na = Val.na) ∧
    (∀ v, roa Val.na v = Val.na) ∧
    (∀ v, roa v Val.na = Val.na) ∧
    (∀ v, current_ratio Val.na v = Val.na) ∧
    (∀ v, current_ratio v Val.na = Val.na) ∧
    (∀ u v, quick_ratio Val.na u v = Val.na) ∧
    (∀ u v, quick_ratio u Val.na v = Val.na) ∧
    (∀ u v, quick_ratio u v Val.na = Val.na) ∧
    (∀ v, debt_to_equity Val.na v = Val.na) ∧
    (∀ v, debt_to_equity v Val.na = Val.na) ∧
    (∀ v, interest_coverage Val.na v = Val.na) ∧
    (∀ v, interest_coverage v Val.na = Val.na) ∧
    (∀ v, inventory_turnover Val.na v = Val.na) ∧
    (∀ v, inventory_turnover v Val.na = Val.na) ∧
    (∀ v, asset_turnover Val.na v = Val.na) ∧
    (∀ v, asset_turnover v Val.na = Val.na) ∧
    (∀ v, pb_ratio Val.na v = Except.ok Val.na) ∧
    (∀ v, pb_ratio v Val.na = Except.ok Val.na) ∧
    (dividend_yield Val.na = Except.ok Val.na) ∧
    (earnings_yield Val.na = Except.ok Val.na) := by
  refine ⟨?_, ?_, ?_, ?_, ?_, ?_, ?_, ?_, ?_, ?_, ?_, ?_, ?_, ?_, ?_, ?_, ?_,
    ?_, ?_, ?_, ?_, ?_, ?_⟩ <;>
    first
      | exact fun v => by simp [gross_profit_margin, net_profit_margin, roa,
          current_ratio, debt_to_equity, interest_coverage, inventory_turnover,
          asset_turnover, pb_ratio]
      | exact fun u v => by simp [quick_ratio]
      | simp [dividend_yield, earnings_yield]

/-- Claim C4, counterexample: with all three statements empty and quote
`{trailingPE: 10}`, the source returns the message string
`"Financial data not available"` — not a RatioSet with PE Ratio = 10 and the
other ratios `'N/A'` as the claim asserts. -/
theorem empty_statements_counterexample :
    calculate_ratios_src emptyStmt emptyStmt emptyStmt qPE10 =
        Except.ok (CalcResult.msg "Financial data not available") ∧
      getRatio (calculate_ratios_src emptyStmt emptyStmt emptyStmt qPE10)
        "PE Ratio" ≠ some (Val.num 10) :=
  ⟨rfl, by decide⟩

/-- Claim C4, amended: when the income statement has zero reporting periods,
`calculate_ratios` returns the early-exit message string
`"Financial data not available"` without raising; no ratio — not even a
quote-derived one — is computed. -/
theorem empty_income_returns_message
    (financials balance_sheet cashflow : Statement) (info : Quote)
    (h : financials.periods = []) :
    calculate_ratios_src financials balance_sheet cashflow info =
      Except.ok (CalcResult.msg "Financial data not available") := by
  unfold calculate_ratios_src
  have he : financials.isEmptyStmt = true := by
    simp [Statement.isEmptyStmt, h]
  rw [he]
  simp

/-- Witness for `empty_income_returns_message` at a concrete zero-period
income statement. -/
theorem empty_income_returns_message_witness :
    calculate_ratios_src (Statement.mk [] [("Total Revenue", [Val.num 5])])
      emptyStmt emptyStmt [] =
      Except.ok (CalcResult.msg "Financial data not available") :=
  empty_income_returns_message _ _ _ _ rfl

/-- Claim C5, counterexample: on income `{Operating Expense: [1]}` (no
recognized line item, so no lookup fires) with quote `{trailingPE: 10}`, the
claim predicts Earnings Yield = (1/10)×100 = 10 computed from the resolved
PE Ratio; the source instead raises `NameError` at line 140 — `pe_ratio` is
never assigned — and returns no RatioSet. -/
theorem earnings_yield_name_error_counterexample :
    calculate_ratios_src finOpEx emptyStmt emptyStmt qPE10 =
        Except.error (PyErr.nameError "pe_ratio") ∧
      getRatio (calculate_ratios_src finOpEx emptyStmt emptyStmt qPE10)
        "Earnings Yield" ≠ some (Val.num 10) :=
  ⟨rfl, by decide⟩

/-- Claim C5, amended: the engine never produces an Earnings Yield result,
because line 140 references the never-assigned `pe_ratio` and raises
`NameError`; the conditional expression written on that line, as a function
of a PE value, yields `'N/A'` for an `'N/A'` PE, equals (1/PE)×100 for a
present nonzero numeric PE, and raises `ZeroDivisionError` — not `'N/A'` —
for PE = 0 (there is no zero guard). -/
theorem earnings_yield_expr_spec (pe : Val) :
    (pe = Val.na → earnings_yield pe = Except.ok Val.na) ∧
    (∀ a : ℚ, pe = Val.num a → a ≠ 0 →
      earnings_yield pe = Except.ok (Val.num (1 / a * 100))) ∧
    (pe = Val.num 0 → earnings_yield pe = Except.error PyErr.zeroDivisionError) := by
  refine ⟨?_, ?_, ?_⟩
  · intro h
    subst h
    simp [earnings_yield]
  · intro a ha hne
    subst ha
    simp [earnings_yield, pyDiv, pyMul, hne, Bind.bind, Except.bind]
  · intro h
    subst h
    simp [earnings_yield, pyDiv, Bind.bind, Except.bind]

/-- Witness for `earnings_yield_expr_spec`: at PE = 10 the line-140
expression yields (1/10)×100 = 10. -/
theorem earnings_yield_expr_spec_witness :
    earnings_yield (Val.num 10) = Except.ok (Val.num 10) := by
  have h := (earnings_yield_expr_spec (Val.num 10)).2.1 10 rfl (by norm_num)
  have h2 : (1 : ℚ) / 10 * 100 = 10 := by norm_num
  rw [h2] at h
  exact h

/-- Claim C6, counterexample: with the quote metric `dividendYield` present
and equal to 0, the dividend-yield expression of line 139 computes
`0 * 100 = 0` — its guard only tests `!= 'N/A'` — so the computed value is
the number 0, not the `'N/A'` sentinel the claim asserts for a zero
metric. -/
theorem dividend_yield_zero_counterexample :
    dividend_yield (safe_get qDY0 "dividendYield" Val.na) =
        Except.ok (Val.num 0) ∧
      Val.num 0 ≠ Val.na := by
  constructor
  · have h : dividend_yield (safe_get qDY0 "dividendYield" Val.na) =
        Except.ok (Val.num (0 * 100)) := rfl
    have h2 : (0 : ℚ) * 100 = 0 := by norm_num
    rw [h2] at h
    exact h
  · decide

/-- Claim C6, amended: the dividend-yield expression of line 139 equals the
quote metric `dividendYield` times 100 whenever the metric is present with a
numeric value — a present zero included, giving 0 — and is `'N/A'` only when
the metric is absent; the computed value never reaches a returned RatioSet,
because line 140 raises before the dictionary is built. -/
theorem dividend_yield_from_quote (info : Quote) :
    (∀ a : ℚ, info.lookup "dividendYield" = some (Val.num a) →
      dividend_yield (safe_get info "dividendYield" Val.na) =
        Except.ok (Val.num (a * 100))) ∧
    (info.lookup "dividendYield" = Option.none →
      dividend_yield (safe_get info "dividendYield" Val.na) =
        Except.ok Val.na) := by
  constructor
  · intro a ha
    have hs : safe_get info "dividendYield" Val.na = Val.num a := by
      simp [safe_get, ha]
    rw [hs]
    simp [dividend_yield, pyMul]
  · intro ha
    have hs : safe_get info "dividendYield" Val.na = Val.na := by
      simp [safe_get, ha]
    rw [hs]
    simp [dividend_yield]

/-- Witness for `dividend_yield_from_quote`: with `{dividendYield: 2}` the
line-139 expression computes 200. -/
theorem dividend_yield_from_quote_witness :
    dividend_yield (safe_get qDY2 "dividendYield" Val.na) =
      Except.ok (Val.num 200) := by
  have h := (dividend_yield_from_quote qDY2).1 2 rfl
  have h2 : (2 : ℚ) * 100 = 200 := by norm_num
  rw [h2] at h
  exact h

/-- Claim C7, counterexample: `safe_get` on a key that is present with a null
value returns the stored `None`, not the `'N/A'` default the claim asserts. -/
theorem safe_get_null_counterexample :
    safe_get [("x", Val.pynone)] "x" Val.na = Val.pynone ∧
      Val.pynone ≠ Val.na :=
  ⟨rfl, by decide⟩

/-- Claim C7, amended: `safe_get` returns the stored value exactly when the
key is present (a present null value included), and the default only when the
key is absent — it is `dict.get`, which does not inspect the stored value. -/
theorem safe_get_stored_or_default (data : Quote) (key : String)
    (default_value : Val) :
    (∀ v, data.lookup key = some v → safe_get data key default_value = v) ∧
    (data.lookup key = Option.none →
      safe_get data key default_value = default_value) := by
  constructor
  · intro v hv
    simp [safe_get, hv]
  · intro hv
    simp [safe_get, hv]

/-- Witness for `safe_get_stored_or_default` at a concrete present key. -/
theorem safe_get_stored_or_default_witness :
    safe_get [("y", Val.num 5)] "y" Val.na = Val.num 5 :=
  (safe_get_stored_or_default [("y", Val.num 5)] "y" Val.na).1 (Val.num 5) rfl

/-- Claim C8 (code_bug): on the exact-values scenario — income
`{Total Revenue: [1000]}`, the four-item balance sheet, empty cash-flow
statement and empty quote — the claimed Current Ratio = 2.0, Quick Ratio =
1.5, Asset Turnover = 2.0 are never produced: the source raises
`KeyError('Total Revenue')` at line 107, because `.loc` looks the present
item up among the transposed frame's reporting periods. -/
theorem scenario_raises_key_error :
    calculate_ratios_src finTR bsScenario emptyStmt [] =
      Except.error (PyErr.keyError "Total Revenue") := by rfl

/-- Claim C9, counterexample: on a statement with periods
`["2024-12-31", "2023-12-31"]` and line item `Total Revenue`, lines 100-101
yield the first line-item name `"Total Revenue"` — the columns of the
transposed frame are line items — not the most recent reporting period
`"2024-12-31"` the claim asserts. -/
theorem latest_period_counterexample :
    latest_period finTwoPeriods = Option.some "Total Revenue" ∧
      latest_period finTwoPeriods ≠ Option.some "2024-12-31" :=
  ⟨rfl, by decide⟩

/-- Claim C9, amended: `recent_year` (lines 100-101) is computed on the
transposed frame, whose columns are the line items: it is the first line-item
name whenever the statement has at least one line item, and `None` exactly
when the statement has no line items — not the identifier of the most recent
reporting period. -/
theorem latest_period_spec (s : Statement) :
    (s.rows = [] → latest_period s = Option.none) ∧
    (∀ item vs rest, s.rows = (item, vs) :: rest →
      latest_period s = Option.some item) := by
  constructor
  · intro h
    simp [latest_period, h]
  · intro item vs rest h
    simp [latest_period, h]

/-- Witness for `latest_period_spec`: a statement with no reporting periods
but one line item still yields that item's name, not `None`. -/
theorem latest_period_spec_witness :
    latest_period (Statement.mk [] [("Inventory", [Val.num 3])]) =
      Option.some "Inventory" :=
  (latest_period_spec _).2 "Inventory" [Val.num 3] [] rfl

/-- Claim C10, counterexample: income `{Total Revenue: [1000]}` is non-empty
and the balance sheet holds `Total Assets` with a value at the income
statement's latest period `"2023"`, yet no lookup is ever performed at that
period: `recent_year` is the line-item name `"Total Revenue"`, not `"2023"`,
and the engine raises `KeyError('Total Revenue')` at line 107 before reading
any balance-sheet item. -/
theorem period_lookup_counterexample :
    calculate_ratios_src finTR bsTA emptyStmt [] =
        Except.error (PyErr.keyError "Total Revenue") ∧
      latest_period finTR ≠ Option.some "2023" :=
  ⟨rfl, by decide⟩

/-- Claim C10, amended: lines 106-143 do pass the single shared label
`recent_year = financials.columns[0]` to every statement's `.loc`, but on the
transposed frame that label is the income statement's first line-item name,
not a period; and since the transposed index holds the reporting periods, the
guarded lookup of any present line item raises `KeyError` with that item's
name whenever the name is not itself a period identifier — so no statement
item is ever read at the income statement's (or any) reporting period. -/
theorem present_item_lookup_raises (s : Statement) (item ry : String)
    (hpresent : s.hasItem item = true) (hnp : item ∉ s.periods) :
    stmtGet s item ry = Except.error (PyErr.keyError item) := by
  have hf : s.periods.findIdx? (· == item) = Option.none := by
    simp only [List.findIdx?_eq_none_iff]
    intro a ha
    exact beq_eq_false_iff_ne.mpr (fun hax => hnp (hax ▸ ha))
  simp [stmtGet, hpresent, Statement.loc, hf]

/-- Witness for `present_item_lookup_raises`: the balance sheet
`{Total Assets: [500]}` has `Total Assets` present, and its guarded lookup
raises `KeyError('Total Assets')` whatever label is passed for
`recent_year`. -/
theorem present_item_lookup_raises_witness :
    stmtGet bsTA "Total Assets" "Total Revenue" =
      Except.error (PyErr.keyError "Total Assets") :=
  present_item_lookup_raises bsTA "Total Assets" "Total Revenue" rfl
    (by decide)
